import Mathlib

/-!
Verification development for the agent-router routing-policy backend.

The persistence-layer operations are shallowly embedded from
`apps/api/app/services/routes.py`, `apps/api/app/services/roles.py` and
`apps/api/app/api/v1/routes.py`, with the SQLAlchemy session replaced by
explicit state passing over a `DB` record and UUIDs replaced by `Nat`
identifiers. The route access evaluator has no implementation in the
source tree (only the `RouteTestRequest` / `RouteTestResponse` schemas
declare its interface), so it is modelled from the specification text.
-/

namespace AgentRouter

/-- Route rules value, from the pydantic schema `RouteRules` in
`app/schemas/routes.py`: `allowAll : bool`, `allowed : List[str]`,
`disallowed : List[str]`. -/
structure RouteRules where
  allowAll : Bool
  allowed : List String
  disallowed : List String
deriving DecidableEq

/-- Stored route row, from the SQLAlchemy model `Route` in
`app/db/models.py` (id, feature_id, agent_id, rules, conditional, status)
together with its `conditions` relationship through the
`route_conditions` association table, kept as the list of attached
condition ids. -/
structure RouteRec where
  id : Nat
  feature_id : Nat
  agent_id : Nat
  rules : RouteRules
  conditional : Bool
  status : String
  conditions : List Nat
deriving DecidableEq

/-- Stored condition row, from the SQLAlchemy model `Condition` in
`app/db/models.py`. The JSON payload `condition_data` is modelled as an
association list of string keys and values. -/
structure ConditionRec where
  id : Nat
  name : String
  description : String
  condition_type : String
  condition_data : List (String × String)
deriving DecidableEq

/-- Stored role row, from the SQLAlchemy model `Role` in
`app/db/models.py`. The mapped columns relevant to the role service are
id, name (unique), description and permissions; the model declares NO
`config_data` column. -/
structure RoleRec where
  id : Nat
  name : String
  description : String
  permissions : List String
deriving DecidableEq

/-- Request body for route creation, from the pydantic schema
`RouteCreate` in `app/schemas/routes.py`. -/
structure RouteCreate where
  feature_id : Nat
  agent_id : Nat
  rules : RouteRules
  conditional : Bool
deriving DecidableEq

/-- Request body for attaching a condition, from the pydantic schema
`RouteCondition` in `app/schemas/routes.py`. -/
structure RouteCondition where
  name : String
  description : String
  condition_type : String
  condition_data : List (String × String)
deriving DecidableEq

/-- Request body for role creation, from the pydantic schema `RoleCreate`
in `app/schemas/roles.py`; note it DOES carry a `config_data` payload. -/
structure RoleCreate where
  name : String
  description : String
  permissions : List String
  config_data : List (String × String)
deriving DecidableEq

/-- The persistent store: the tables consulted by the route and role
services. Agents and features are consulted only through existence checks
on their primary key (`select(Agent).where(Agent.id == ...)`), so they are
kept as lists of ids. `nextId` models the generator supplying fresh
primary keys (`default=uuid.uuid4`). -/
structure DB where
  agents : List Nat
  features : List Nat
  routes : List RouteRec
  conditions : List ConditionRec
  roles : List RoleRec
  nextId : Nat
deriving DecidableEq

/-- Errors a service call can raise: `badRequest` models a fastapi
`HTTPException` with status 400 and the given detail, `typeError` models a
Python `TypeError` escaping the service. -/
inductive SvcErr where
  | badRequest (detail : String)
  | typeError (msg : String)
deriving DecidableEq

/-- Outcome of a service call: `notFound` models the Python service
returning `None` (the API layer turns it into a 404 response), `err` a
raised exception, `ok` a successful return value. -/
inductive SvcResult (α : Type) where
  | notFound
  | err (e : SvcErr)
  | ok (a : α)
deriving DecidableEq

/-- `RouteService.create_route` from `app/services/routes.py`: verify the
agent exists, then the feature, and only then construct and persist the
new route (status defaults to "active", no conditions attached). -/
def create_route (db : DB) (rd : RouteCreate) : DB × SvcResult RouteRec :=
  if !db.agents.contains rd.agent_id then
    (db, .err (.badRequest "Agent not found"))
  else if !db.features.contains rd.feature_id then
    (db, .err (.badRequest "Feature not found"))
  else
    let route : RouteRec :=
      { id := db.nextId
        feature_id := rd.feature_id
        agent_id := rd.agent_id
        rules := rd.rules
        conditional := rd.conditional
        status := "active"
        conditions := [] }
    ({ db with routes := db.routes ++ [route], nextId := db.nextId + 1 }, .ok route)

/-- `RouteService.update_route` from `app/services/routes.py`: fetch the
route (returning `None` when absent), verify agent then feature, then
overwrite exactly the four fields feature_id, agent_id, rules,
conditional on the fetched row. -/
def update_route (db : DB) (rid : Nat) (rd : RouteCreate) : DB × SvcResult RouteRec :=
  match db.routes.find? (fun r => r.id == rid) with
  | Option.none => (db, .notFound)
  | Option.some route =>
    if !db.agents.contains rd.agent_id then
      (db, .err (.badRequest "Agent not found"))
    else if !db.features.contains rd.feature_id then
      (db, .err (.badRequest "Feature not found"))
    else
      let route2 : RouteRec :=
        { route with
          feature_id := rd.feature_id
          agent_id := rd.agent_id
          rules := rd.rules
          conditional := rd.conditional }
      ({ db with routes := db.routes.map (fun r => if r.id == rid then route2 else r) },
       .ok route2)

/-- `RouteService.add_condition_to_route` from `app/services/routes.py`:
fetch the route (returning `None` when absent), then unconditionally
create a fresh `Condition` row from the request payload, persist it, and
append it to the route's conditions relationship. No check for an
already-attached equal condition is made. -/
def add_condition_to_route (db : DB) (rid : Nat) (cd : RouteCondition) :
    DB × SvcResult RouteRec :=
  match db.routes.find? (fun r => r.id == rid) with
  | Option.none => (db, .notFound)
  | Option.some route =>
    let condition : ConditionRec :=
      { id := db.nextId
        name := cd.name
        description := cd.description
        condition_type := cd.condition_type
        condition_data := cd.condition_data }
    let db1 : DB :=
      { db with conditions := db.conditions ++ [condition], nextId := db.nextId + 1 }
    let route2 : RouteRec := { route with conditions := route.conditions ++ [condition.id] }
    ({ db1 with routes := db1.routes.map (fun r => if r.id == rid then route2 else r) },
     .ok route2)

/-- `RouteService.remove_condition_from_route` from
`app/services/routes.py`: fetch the route (returning `None` when absent),
fetch the condition row by id (returning `None` when absent), and remove
it from the route's conditions relationship only if it is attached,
otherwise return the route unchanged. -/
def remove_condition_from_route (db : DB) (rid cid : Nat) : DB × SvcResult RouteRec :=
  match db.routes.find? (fun r => r.id == rid) with
  | Option.none => (db, .notFound)
  | Option.some route =>
    match db.conditions.find? (fun c => c.id == cid) with
    | Option.none => (db, .notFound)
    | Option.some _ =>
      if route.conditions.contains cid then
        let route2 : RouteRec := { route with conditions := route.conditions.erase cid }
        ({ db with routes := db.routes.map (fun r => if r.id == rid then route2 else r) },
         .ok route2)
      else
        (db, .ok route)

/-- The mapped column names of the SQLAlchemy model `Role` in
`app/db/models.py`. -/
def roleModelColumns : List String :=
  ["id", "name", "description", "permissions", "is_custom", "source",
   "created_at", "updated_at"]

/-- The keyword arguments `RoleService.create_role` passes to the `Role`
constructor in `app/services/roles.py`. -/
def roleCreateKwargs : List String :=
  ["name", "description", "permissions", "config_data"]

/-- `RoleService.create_role` from `app/services/roles.py`. SQLAlchemy
declarative models accept only mapped attribute names as constructor
keyword arguments and raise `TypeError` on any other; the service passes
`config_data`, which `Role` does not declare, so the constructor call is
modelled by checking each keyword against the mapped columns before the
row can be built and persisted. -/
def create_role (db : DB) (rd : RoleCreate) : DB × SvcResult RoleRec :=
  match roleCreateKwargs.find? (fun k => !roleModelColumns.contains k) with
  | Option.some k =>
    (db, .err (.typeError (k ++ " is an invalid keyword argument for Role")))
  | Option.none =>
    let role : RoleRec :=
      { id := db.nextId
        name := rd.name
        description := rd.description
        permissions := rd.permissions }
    ({ db with roles := db.roles ++ [role], nextId := db.nextId + 1 }, .ok role)

/-- `RouteService.list_routes` from `app/services/routes.py`:
`select(Route).offset(skip).limit(limit)` over the stored routes. -/
def list_routes_svc (db : DB) (skip limit : Nat) : List RouteRec :=
  (db.routes.drop skip).take limit

/-- Response shape of the route listing endpoint, from the pydantic
schema `RouteListResponse` in `app/schemas/routes.py`. -/
structure RouteListResponse where
  routes : List RouteRec
  total : Nat
deriving DecidableEq

/-- The `GET /routes` handler `list_routes` from `app/api/v1/routes.py`:
when both `page` and `size` are given they override skip and limit as
`skip = (page - 1) * size`, `limit = size`; the response's `total` is
`len(routes)`, the length of the returned page. -/
def list_routes_api (db : DB) (skip limit : Nat) (page size : Option Nat) :
    RouteListResponse :=
  let sl : Nat × Nat :=
    match page, size with
    | Option.some p, Option.some s => ((p - 1) * s, s)
    | _, _ => (skip, limit)
  let rs := list_routes_svc db sl.1 sl.2
  { routes := rs, total := rs.length }

/-- Modelled from the spec: the source tree contains no implementation of
the Access Evaluator of spec sections 4.1 to 4.3 (only the schemas
`RouteTestRequest` and `RouteTestResponse` declare its interface), so the
condition payload is taken from the spec's data model, section 3:
`time_based` carries start time and end time (minutes of day), a timezone
and a set of weekday names; `role_based` carries a set of allowed role
names and the override flag. -/
inductive ConditionPayload where
  | timeBased (startTime endTime : Nat) (timezone : String) (daysOfWeek : List String)
  | roleBased (allowedRoles : List String) (overrideTimeRestrictions : Bool)

/-- Modelled from the spec: a Condition as the missing evaluator consumes
it, a name with a typed payload (spec section 3). -/
structure ECondition where
  name : String
  payload : ConditionPayload

/-- Modelled from the spec: the Route snapshot the missing evaluator
consumes, its rule set, conditional flag and attached conditions (spec
sections 3 and 4.3). -/
structure ERoute where
  rules : RouteRules
  conditional : Bool
  conditions : List ECondition

/-- Modelled from the spec: the evaluation timestamp of the missing
evaluator, rendered per timezone as a weekday name and a minute of the
day (spec section 4.2 evaluates the timestamp in the timezone each
`time_based` condition carries). -/
structure Timestamp where
  weekdayIn : String → String
  minuteOfDayIn : String → Nat

/-- Decision shape of the missing evaluator, from the spec section 4.3
and the `RouteTestResponse` schema in `app/schemas/routes.py`. -/
structure Decision where
  allowed : Bool
  reason : String
deriving DecidableEq

/-- Whether two role-name lists share an element, by case-sensitive exact
string match (spec section 4.1). -/
def intersects (xs ys : List String) : Bool :=
  xs.any (fun x => ys.contains x)

/-- Modelled from the spec: the missing rule-set evaluation of spec
section 4.1, precedence highest first: explicit deny, allow-all, explicit
allow, default deny. -/
def evaluateRouteRules (rules : RouteRules) (roles : List String) : Decision :=
  if intersects roles rules.disallowed then { allowed := false, reason := "explicit deny" }
  else if rules.allowAll then { allowed := true, reason := "allow-all" }
  else if intersects roles rules.allowed then { allowed := true, reason := "explicit allow" }
  else { allowed := false, reason := "not in allow-list" }

/-- Modelled from the spec: the missing single-condition evaluation of
spec section 4.2. A `time_based` condition is satisfied iff the weekday
in its timezone is among its weekday names and the minute of the day lies
in the half-open interval from start (inclusive) to end (exclusive); a
`role_based` condition is satisfied iff the role set intersects its
allowed roles. -/
def condSatisfied (roles : List String) (t : Timestamp) (c : ECondition) : Bool :=
  match c.payload with
  | .timeBased startTime endTime tz days =>
    days.contains (t.weekdayIn tz) &&
      (startTime ≤ t.minuteOfDayIn tz && t.minuteOfDayIn tz < endTime)
  | .roleBased allowedRoles _ => intersects roles allowedRoles

/-- Modelled from the spec: whether a condition is a `role_based`
condition with the override flag set that is satisfied by the role set
(spec section 4.2). -/
def overrideSatisfied (roles : List String) (c : ECondition) : Bool :=
  match c.payload with
  | .timeBased _ _ _ _ => false
  | .roleBased allowedRoles ov => ov && intersects roles allowedRoles

/-- Modelled from the spec: the missing composed evaluator `EvaluateAccess`
of spec section 4.3. Base rule-set check first; a deny is final; a
non-conditional route or one with no attached conditions keeps the base
allow; otherwise the conditional gate is satisfied if any satisfied
`role_based` condition has the override flag, and failing that only if
every attached condition is satisfied, a failed gate denying with reason
"condition not met". -/
def evaluateAccess (route : ERoute) (roles : List String) (t : Timestamp) : Decision :=
  let base := evaluateRouteRules route.rules roles
  if !base.allowed then base
  else if !route.conditional || route.conditions.isEmpty then base
  else if route.conditions.any (fun c => overrideSatisfied roles c) then base
  else if route.conditions.all (fun c => condSatisfied roles t c) then base
  else { allowed := false, reason := "condition not met" }

/-! Concrete sample data used by witnesses and counterexamples. -/

/-- Rule set of scenario R2 in spec section 8. -/
def rulesR2 : RouteRules :=
  { allowAll := true, allowed := [], disallowed := ["Guest"] }

/-- The business-hours `time_based` condition of scenario R in spec
section 8: Monday to Friday, 09:00 (minute 540) to 17:00 (minute 1020),
UTC. -/
def condBusinessHours : ECondition :=
  { name := "business-hours"
    payload := .timeBased 540 1020 "UTC"
      ["Monday", "Tuesday", "Wednesday", "Thursday", "Friday"] }

/-- The override `role_based` condition of scenario R3 in spec
section 8. -/
def condAdminOverride : ECondition :=
  { name := "admin-override"
    payload := .roleBased ["Admin"] true }

/-- Route of scenario R3 in spec section 8: rules of scenario R,
conditional, with the time condition and the admin override condition
attached. -/
def routeR3 : ERoute :=
  { rules := { allowAll := false, allowed := ["Manager"], disallowed := [] }
    conditional := true
    conditions := [condBusinessHours, condAdminOverride] }

/-- A Saturday 10:00 evaluation timestamp (minute 600 of the day in every
timezone). -/
def tsSaturday : Timestamp :=
  { weekdayIn := fun _ => "Saturday", minuteOfDayIn := fun _ => 600 }

/-- A stored route used by concrete store states below. -/
def routeA : RouteRec :=
  { id := 10
    feature_id := 1
    agent_id := 1
    rules := { allowAll := true, allowed := [], disallowed := [] }
    conditional := true
    status := "active"
    conditions := [] }

/-- A concrete store: one agent, one feature, one route, no conditions,
no roles. -/
def dbA : DB :=
  { agents := [1], features := [1], routes := [routeA], conditions := [],
    roles := [], nextId := 100 }

/-- A concrete condition-attachment payload. -/
def cdA : RouteCondition :=
  { name := "office-hours"
    description := "time gate"
    condition_type := "time_based"
    condition_data := [("timezone", "UTC")] }

/-- A stored condition row not attached to any route. -/
def condUnattached : ConditionRec :=
  { id := 50
    name := "spare"
    description := "unattached"
    condition_type := "role_based"
    condition_data := [] }

/-- The store `dbA` with the unattached condition row added. -/
def dbB : DB :=
  { dbA with conditions := [condUnattached] }

/-- A stored role named Admin. -/
def roleAdmin : RoleRec :=
  { id := 5, name := "Admin", description := "admin role", permissions := ["*"] }

/-- The store `dbA` with the Admin role present. -/
def dbRoles : DB :=
  { dbA with roles := [roleAdmin] }

/-- A role-creation request whose name duplicates the stored Admin
role. -/
def rdAdminDup : RoleCreate :=
  { name := "Admin", description := "dup", permissions := [], config_data := [] }

/-- A route-creation request referencing a nonexistent agent. -/
def rdBadAgent : RouteCreate :=
  { feature_id := 1, agent_id := 99, rules := rulesR2, conditional := false }

/-- A route-creation request referencing an existing agent but a
nonexistent feature. -/
def rdBadFeature : RouteCreate :=
  { feature_id := 99, agent_id := 1, rules := rulesR2, conditional := false }

/-- A valid route-update request against `dbA`. -/
def rdGood : RouteCreate :=
  { feature_id := 1, agent_id := 1, rules := rulesR2, conditional := false }

/-- The route `routeA` after a successful update with `rdGood`. -/
def routeA2 : RouteRec :=
  { routeA with
    feature_id := 1
    agent_id := 1
    rules := rulesR2
    conditional := false }

/-- The store `dbA` after the successful update of route 10 with
`rdGood`. -/
def dbA2 : DB :=
  { dbA with routes := [routeA2] }

/-- A second stored route, distinct id from `routeA`. -/
def routeB : RouteRec :=
  { routeA with id := 11 }

/-- A store holding two routes, for the pagination claim. -/
def dbTwo : DB :=
  { dbA with routes := [routeA, routeB] }

/-! Helper lemmas. -/

/-- Replacing, in a list, every element satisfying `p` by a fixed element
`b` that itself satisfies `p` turns any successful `find?` into `some b`. -/
theorem find?_map_update {α : Type} (p : α → Bool) (b : α) (hb : p b = true) :
    ∀ (l : List α) (a : α), l.find? p = Option.some a →
      (l.map (fun x => if p x then b else x)).find? p = Option.some b := by
  intro l
  induction l with
  | nil => intro a h; simp [List.find?] at h
  | cons x xs ih =>
    intro a h
    by_cases hx : p x = true
    · simp only [List.map_cons, if_pos hx]
      exact List.find?_cons_of_pos _ hb
    · simp only [Bool.not_eq_true] at hx
      rw [List.find?_cons_of_neg _ (by simp [hx])] at h
      simp only [List.map_cons, if_neg (by simp [hx] : ¬ (p x = true))]
      rw [List.find?_cons_of_neg _ (by simp [hx])]
      exact ih a h

/-! Claim theorems. -/

/-- C1: for every RouteRules value and every principal role set, if the
role set intersects `disallowed`, rule-set evaluation returns deny with
reason "explicit deny", regardless of `allow_all` and of the contents of
`allowed`. -/
theorem evaluateRouteRules_explicit_deny (rules : RouteRules) (roles : List String)
    (h : intersects roles rules.disallowed = true) :
    evaluateRouteRules rules roles = { allowed := false, reason := "explicit deny" } := by
  simp [evaluateRouteRules, h]

/-- Witness for C1 at scenario R2 of spec section 8: rules
allow-all with disallowed Guest, roles Guest and Manager. -/
theorem evaluateRouteRules_explicit_deny_witness :
    intersects ["Guest", "Manager"] rulesR2.disallowed = true ∧
    evaluateRouteRules rulesR2 ["Guest", "Manager"]
      = { allowed := false, reason := "explicit deny" } :=
  ⟨by decide, evaluateRouteRules_explicit_deny rulesR2 ["Guest", "Manager"] (by decide)⟩

/-- C2: for every conditional route with at least one attached condition,
every role set and every timestamp, given a passing base rule-set check:
access evaluation allows if some attached role-based condition with the
override flag is satisfied; when no such override condition is satisfied
it allows exactly when every attached condition is satisfied, and denies
with reason "condition not met" otherwise. -/
theorem evaluateAccess_gate (route : ERoute) (roles : List String) (t : Timestamp)
    (hcond : route.conditional = true) (hne : route.conditions.isEmpty = false)
    (hbase : (evaluateRouteRules route.rules roles).allowed = true) :
    (route.conditions.any (fun c => overrideSatisfied roles c) = true →
       (evaluateAccess route roles t).allowed = true) ∧
    (route.conditions.any (fun c => overrideSatisfied roles c) = false →
       ((evaluateAccess route roles t).allowed = true ↔
          route.conditions.all (fun c => condSatisfied roles t c) = true) ∧
       (route.conditions.all (fun c => condSatisfied roles t c) = false →
          evaluateAccess route roles t = { allowed := false, reason := "condition not met" })) := by
  unfold evaluateAccess
  simp only [hcond, hne, hbase, Bool.not_true, Bool.false_or, if_false]
  constructor
  · intro hov
    simp [hov, hbase]
  · intro hov
    by_cases hall : route.conditions.all (fun c => condSatisfied roles t c) = true
    · simp [hov, hall, hbase]
    · simp only [Bool.not_eq_true] at hall
      simp [hov, hall]

/-- Witness for C2 at scenario R3 of spec section 8, with roles Admin and
Manager (so that the base rule-set check passes) at Saturday 10:00: the
admin override condition short-circuits the failing business-hours
condition and access is allowed. -/
theorem evaluateAccess_gate_witness :
    (evaluateAccess routeR3 ["Admin", "Manager"] tsSaturday).allowed = true :=
  (evaluateAccess_gate routeR3 ["Admin", "Manager"] tsSaturday
    (by decide) (by decide) (by decide)).1 (by decide)

/-- C3: route creation with an unresolvable agent id fails with
"Agent not found", and with a resolvable agent but unresolvable feature id
fails with "Feature not found"; in both cases the store, in particular the
set of stored routes, is exactly what it was before the call. -/
theorem create_route_validates (db : DB) (rd : RouteCreate) :
    (db.agents.contains rd.agent_id = false →
       create_route db rd = (db, SvcResult.err (SvcErr.badRequest "Agent not found"))) ∧
    (db.agents.contains rd.agent_id = true →
       db.features.contains rd.feature_id = false →
       create_route db rd = (db, SvcResult.err (SvcErr.badRequest "Feature not found"))) := by
  constructor
  · intro h
    unfold create_route
    rw [h]
    rfl
  · intro h1 h2
    unfold create_route
    rw [h1, h2]
    rfl

/-- Witness for C3: against the concrete store `dbA`, a request naming
agent 99 fails with "Agent not found" and one naming feature 99 fails with
"Feature not found", leaving the store untouched. -/
theorem create_route_validates_witness :
    dbA.agents.contains rdBadAgent.agent_id = false ∧
    create_route dbA rdBadAgent = (dbA, SvcResult.err (SvcErr.badRequest "Agent not found")) ∧
    create_route dbA rdBadFeature = (dbA, SvcResult.err (SvcErr.badRequest "Feature not found")) :=
  ⟨by decide,
   (create_route_validates dbA rdBadAgent).1 (by decide),
   (create_route_validates dbA rdBadFeature).2 (by decide) (by decide)⟩

/-- C7: route update yields not-found for an unresolvable route id,
"Agent not found" then "Feature not found" for unresolvable references
while leaving the store (hence every field of the stored route) unchanged,
and no outcome other than these three errors or success is possible. -/
theorem update_route_error_cases (db : DB) (rid : Nat) (rd : RouteCreate) :
    (db.routes.find? (fun r => r.id == rid) = Option.none →
       update_route db rid rd = (db, SvcResult.notFound)) ∧
    ((db.routes.find? (fun r => r.id == rid)).isSome = true →
       db.agents.contains rd.agent_id = false →
       update_route db rid rd = (db, SvcResult.err (SvcErr.badRequest "Agent not found"))) ∧
    ((db.routes.find? (fun r => r.id == rid)).isSome = true →
       db.agents.contains rd.agent_id = true →
       db.features.contains rd.feature_id = false →
       update_route db rid rd = (db, SvcResult.err (SvcErr.badRequest "Feature not found"))) ∧
    (update_route db rid rd = (db, SvcResult.notFound) ∨
     update_route db rid rd = (db, SvcResult.err (SvcErr.badRequest "Agent not found")) ∨
     update_route db rid rd = (db, SvcResult.err (SvcErr.badRequest "Feature not found")) ∨
     ∃ r, (update_route db rid rd).2 = SvcResult.ok r) := by
  refine ⟨?_, ?_, ?_, ?_⟩
  · intro h
    unfold update_route
    rw [h]
  · intro h1 h2
    cases hf : db.routes.find? (fun r => r.id == rid) with
    | none => rw [hf] at h1; simp at h1
    | some route =>
      unfold update_route
      rw [hf, h2]
      rfl
  · intro h1 h2 h3
    cases hf : db.routes.find? (fun r => r.id == rid) with
    | none => rw [hf] at h1; simp at h1
    | some route =>
      unfold update_route
      rw [hf, h2, h3]
      rfl
  · cases hf : db.routes.find? (fun r => r.id == rid) with
    | none =>
      left
      unfold update_route
      rw [hf]
    | some route =>
      by_cases ha : db.agents.contains rd.agent_id = true
      · by_cases hfe : db.features.contains rd.feature_id = true
        · right; right; right
          refine ⟨{ route with feature_id := rd.feature_id, agent_id := rd.agent_id, rules := rd.rules, conditional := rd.conditional }, ?_⟩
          unfold update_route
          rw [hf, ha, hfe]
          rfl
        · right; right; left
          simp only [Bool.not_eq_true] at hfe
          unfold update_route
          rw [hf, ha, hfe]
          rfl
      · right; left
        simp only [Bool.not_eq_true] at ha
        unfold update_route
        rw [hf, ha]
        rfl

/-- Witness for C7: against the concrete store `dbA`, route id 99 yields
not-found, and route 10 with a bad agent or feature reference yields the
matching error with the store unchanged. -/
theorem update_route_error_cases_witness :
    update_route dbA 99 rdGood = (dbA, SvcResult.notFound) ∧
    update_route dbA 10 rdBadAgent = (dbA, SvcResult.err (SvcErr.badRequest "Agent not found")) ∧
    update_route dbA 10 rdBadFeature = (dbA, SvcResult.err (SvcErr.badRequest "Feature not found")) :=
  ⟨(update_route_error_cases dbA 99 rdGood).1 (by decide),
   (update_route_error_cases dbA 10 rdBadAgent).2.1 (by decide) (by decide),
   (update_route_error_cases dbA 10 rdBadFeature).2.2.1 (by decide) (by decide) (by decide)⟩

/-- C9: a successful route update rewrites exactly the four fields
feature_id, agent_id, rules and conditional of the stored route; its
status and attached condition set are unchanged, and every other table of
the store is untouched. -/
theorem update_route_frame (db : DB) (rid : Nat) (rd : RouteCreate) (db2 : DB) (r : RouteRec)
    (h : update_route db rid rd = (db2, SvcResult.ok r)) :
    ∃ r0, db.routes.find? (fun x => x.id == rid) = Option.some r0 ∧
      r = { r0 with feature_id := rd.feature_id, agent_id := rd.agent_id, rules := rd.rules, conditional := rd.conditional } ∧
      r.status = r0.status ∧
      r.conditions = r0.conditions ∧
      db2.routes = db.routes.map (fun x => if x.id == rid then r else x) ∧
      db2.agents = db.agents ∧
      db2.features = db.features ∧
      db2.conditions = db.conditions ∧
      db2.roles = db.roles ∧
      db2.nextId = db.nextId := by
  unfold update_route at h
  cases hf : db.routes.find? (fun x => x.id == rid) with
  | none =>
    rw [hf] at h
    simp at h
  | some r0 =>
    rw [hf] at h
    by_cases ha : db.agents.contains rd.agent_id = true
    · by_cases hfe : db.features.contains rd.feature_id = true
      · rw [ha, hfe] at h
        have h2 : (({ db with routes := db.routes.map (fun x => if x.id == rid then ({ r0 with feature_id := rd.feature_id, agent_id := rd.agent_id, rules := rd.rules, conditional := rd.conditional } : RouteRec) else x) } : DB), SvcResult.ok ({ r0 with feature_id := rd.feature_id, agent_id := rd.agent_id, rules := rd.rules, conditional := rd.conditional } : RouteRec)) = (db2, SvcResult.ok r) := h
        rw [Prod.mk.injEq] at h2
        obtain ⟨hdb, hr⟩ := h2
        rw [SvcResult.ok.injEq] at hr
        subst hdb
        subst hr
        exact ⟨r0, rfl, rfl, rfl, rfl, rfl, rfl, rfl, rfl, rfl, rfl⟩
      · simp only [Bool.not_eq_true] at hfe
        rw [ha, hfe] at h
        simp at h
    · simp only [Bool.not_eq_true] at ha
      rw [ha] at h
      simp at h

/-- Witness for C9: the successful update of route 10 in `dbA` with
`rdGood` produces exactly `routeA2` and the store `dbA2`, preserving
status, conditions and all other tables. -/
theorem update_route_frame_witness :
    ∃ r0, dbA.routes.find? (fun x => x.id == 10) = Option.some r0 ∧
      routeA2 = { r0 with feature_id := rdGood.feature_id, agent_id := rdGood.agent_id, rules := rdGood.rules, conditional := rdGood.conditional } ∧
      routeA2.status = r0.status ∧
      routeA2.conditions = r0.conditions ∧
      dbA2.routes = dbA.routes.map (fun x => if x.id == 10 then routeA2 else x) ∧
      dbA2.agents = dbA.agents ∧
      dbA2.features = dbA.features ∧
      dbA2.conditions = dbA.conditions ∧
      dbA2.roles = dbA.roles ∧
      dbA2.nextId = dbA.nextId :=
  update_route_frame dbA 10 rdGood dbA2 routeA2 (by decide)

/-- C8: role creation never succeeds: for every store and request,
`create_role` raises `TypeError` because it passes the keyword
`config_data` to a `Role` model that declares no such column, and the
store is left unchanged, so no role is ever persisted through it. -/
theorem create_role_always_fails (db : DB) (rd : RoleCreate) :
    create_role db rd
      = (db, SvcResult.err (SvcErr.typeError "config_data is an invalid keyword argument for Role")) := by
  have hk : roleCreateKwargs.find? (fun k => !roleModelColumns.contains k)
      = Option.some "config_data" := by decide
  unfold create_role
  rw [hk]
  rfl

/-- C6: against a store already holding a role named Admin, creating a
role with the duplicate name "Admin" fails and persists nothing, but the
failure is the `TypeError` from the nonexistent `config_data` column, not
a conflict error about the duplicate name. -/
theorem create_role_duplicate_name_typeerror :
    dbRoles.roles.any (fun r => r.name == "Admin") = true ∧
    rdAdminDup.name = "Admin" ∧
    create_role dbRoles rdAdminDup
      = (dbRoles, SvcResult.err (SvcErr.typeError "config_data is an invalid keyword argument for Role")) := by
  refine ⟨by decide, rfl, ?_⟩
  decide

/-- C10: the `total` field of the route-listing response equals the
length of the returned page, is therefore at most `limit`, and is 0
whenever `skip` is at least the number of stored routes, regardless of
how many routes exist. -/
theorem list_routes_total_is_page_length (db : DB) (skip limit : Nat) :
    (list_routes_api db skip limit Option.none Option.none).total
      = (list_routes_svc db skip limit).length ∧
    (list_routes_api db skip limit Option.none Option.none).total ≤ limit ∧
    (db.routes.length ≤ skip →
       (list_routes_api db skip limit Option.none Option.none).total = 0) := by
  refine ⟨rfl, ?_, ?_⟩
  · simp [list_routes_api, list_routes_svc]
  · intro h
    simp [list_routes_api, list_routes_svc, List.drop_eq_nil_of_le h]

/-- Witness for C10: the store `dbTwo` holds two routes, yet listing with
skip 5 and limit 10 reports total 0. -/
theorem list_routes_total_witness :
    dbTwo.routes.length = 2 ∧
    (list_routes_api dbTwo 5 10 Option.none Option.none).total = 0 :=
  ⟨by decide, (list_routes_total_is_page_length dbTwo 5 10).2.2 (by decide)⟩

/-- Closed form of one `add_condition_to_route` call on a store whose
route lookup succeeds: a fresh condition row with id `db.nextId` is
persisted and appended to the found route. -/
theorem add_condition_eq (db : DB) (rid : Nat) (cd : RouteCondition) (r0 : RouteRec)
    (h : db.routes.find? (fun r => r.id == rid) = Option.some r0) :
    add_condition_to_route db rid cd =
      ({ agents := db.agents, features := db.features,
         routes := db.routes.map (fun r => if r.id == rid then ({ r0 with conditions := r0.conditions ++ [db.nextId] } : RouteRec) else r),
         conditions := db.conditions ++ [{ id := db.nextId, name := cd.name, description := cd.description, condition_type := cd.condition_type, condition_data := cd.condition_data }],
         roles := db.roles, nextId := db.nextId + 1 },
       SvcResult.ok ({ r0 with conditions := r0.conditions ++ [db.nextId] } : RouteRec)) := by
  unfold add_condition_to_route
  rw [h]

/-- C4 counterexample: against the concrete store `dbA`, attaching the
same condition payload `cdA` to route 10 twice leaves the route with TWO
attached conditions, and the store holds two condition rows carrying that
very payload, so the second attach is not idempotent and the condition
set does not contain exactly one instance. -/
theorem attach_twice_duplicates_cex :
    ((add_condition_to_route (add_condition_to_route dbA 10 cdA).1 10 cdA).1.routes.find?
        (fun r => r.id == 10)).map (fun r => r.conditions.length) = Option.some 2 ∧
    ((add_condition_to_route (add_condition_to_route dbA 10 cdA).1 10 cdA).1.conditions.filter
        (fun c => c.name == cdA.name && c.condition_type == cdA.condition_type
          && c.condition_data == cdA.condition_data)).length = 2 := by
  decide

/-- C4 (amended): every `add_condition_to_route` call on a resolvable
route creates a fresh condition row and appends its id; two successive
calls with the same payload leave the route with two attached instances
of the payload under the distinct ids `nextId` and `nextId + 1`, so
attaching is not idempotent. -/
theorem add_condition_appends_fresh (db : DB) (rid : Nat) (cd : RouteCondition) (r0 : RouteRec)
    (h : db.routes.find? (fun r => r.id == rid) = Option.some r0) :
    (add_condition_to_route db rid cd).2
        = SvcResult.ok ({ r0 with conditions := r0.conditions ++ [db.nextId] } : RouteRec) ∧
    (add_condition_to_route (add_condition_to_route db rid cd).1 rid cd).2
        = SvcResult.ok ({ r0 with conditions := r0.conditions ++ [db.nextId, db.nextId + 1] } : RouteRec) := by
  have hp0 : (fun r : RouteRec => r.id == rid) r0 = true :=
    List.find?_some (p := fun r : RouteRec => r.id == rid) h
  have e1 := add_condition_eq db rid cd r0 h
  have hp1 : (fun r : RouteRec => r.id == rid)
      ({ r0 with conditions := r0.conditions ++ [db.nextId] } : RouteRec) = true := hp0
  have hfind1 : ((add_condition_to_route db rid cd).1).routes.find? (fun r => r.id == rid)
      = Option.some ({ r0 with conditions := r0.conditions ++ [db.nextId] } : RouteRec) := by
    rw [e1]
    exact find?_map_update (fun r : RouteRec => r.id == rid)
      ({ r0 with conditions := r0.conditions ++ [db.nextId] } : RouteRec) hp1 db.routes r0 h
  have e2 := add_condition_eq (add_condition_to_route db rid cd).1 rid cd _ hfind1
  constructor
  · rw [e1]
  · rw [e2, e1]
    simp

/-- Witness for the amended C4 at the concrete store `dbA`: the two
successive attaches of `cdA` to route 10 yield routes carrying first one,
then two freshly created condition ids. -/
theorem add_condition_appends_fresh_witness :
    (add_condition_to_route dbA 10 cdA).2
        = SvcResult.ok ({ routeA with conditions := routeA.conditions ++ [dbA.nextId] } : RouteRec) ∧
    (add_condition_to_route (add_condition_to_route dbA 10 cdA).1 10 cdA).2
        = SvcResult.ok ({ routeA with conditions := routeA.conditions ++ [dbA.nextId, dbA.nextId + 1] } : RouteRec) :=
  add_condition_appends_fresh dbA 10 cdA routeA (by decide)

/-- C5 counterexample: against the concrete store `dbA`, whose route 10
resolves, detaching the nonexistent condition id 99 yields the not-found
outcome (the API layer turns it into a 404 error), so a resolvable route
id does not rule out an error. -/
theorem remove_condition_missing_cex :
    (dbA.routes.find? (fun r => r.id == 10)).isSome = true ∧
    remove_condition_from_route dbA 10 99 = (dbA, SvcResult.notFound) := by
  decide

/-- C5 (amended): detaching a stored but unattached condition from an
existing route returns the route unchanged without error and leaves the
store untouched; the not-found error arises both when the route id does
not resolve and when the condition id does not resolve. -/
theorem remove_condition_unattached_noop (db : DB) (rid cid : Nat) :
    (∀ r0, db.routes.find? (fun r => r.id == rid) = Option.some r0 →
       (db.conditions.find? (fun c => c.id == cid)).isSome = true →
       r0.conditions.contains cid = false →
       remove_condition_from_route db rid cid = (db, SvcResult.ok r0)) ∧
    (db.routes.find? (fun r => r.id == rid) = Option.none →
       remove_condition_from_route db rid cid = (db, SvcResult.notFound)) ∧
    (db.conditions.find? (fun c => c.id == cid) = Option.none →
       remove_condition_from_route db rid cid = (db, SvcResult.notFound)) := by
  refine ⟨?_, ?_, ?_⟩
  · intro r0 hr hc hn
    cases hcf : db.conditions.find? (fun c => c.id == cid) with
    | none => rw [hcf] at hc; simp at hc
    | some c =>
      unfold remove_condition_from_route
      rw [hr, hcf]
      simp only [hn]
      rfl
  · intro h
    unfold remove_condition_from_route
    rw [h]
  · intro h
    cases hr : db.routes.find? (fun r => r.id == rid) with
    | none =>
      unfold remove_condition_from_route
      rw [hr]
    | some r0 =>
      unfold remove_condition_from_route
      rw [hr, h]

/-- Witness for the amended C5 at the concrete store `dbB`: route 10
resolves, condition 50 is stored but unattached, and detaching it
returns the unchanged route without error. -/
theorem remove_condition_unattached_noop_witness :
    remove_condition_from_route dbB 10 50 = (dbB, SvcResult.ok routeA) :=
  (remove_condition_unattached_noop dbB 10 50).1 routeA (by decide) (by decide) (by decide)

end AgentRouter
